import Mathlib

/-!
Verification development for the search-term-filter repository.

The pipeline in `src/main.py` (embedded in `src/unnamed/part_000`) loads a
search-term table and a negative-keyword table, classifies every term against
the rules, and writes a review file (non-excluded terms), an audit file
(all terms) and summary counts.  The matcher, suggestion engine, analytics
and batch orchestrator live in sibling Python modules (`matcher.py`,
`auto_negative.py`, `analytics.py`, `batch_processor.py`) that are not part
of the source tree here; where a definition models one of those modules it is
marked `Modelled from the spec:` in its doc comment and follows the spec text
(and the code excerpts quoted in the repository's audit documents).

Strings are processed through character-level helpers (rather than the
built-in `String` operations) so that every definition evaluates by kernel
reduction on concrete inputs; each helper is a direct transcription of the
Python string operation it stands for.
-/

namespace SearchTermFilter

/-- Match types for negative keywords: Exact, Phrase or Broad (spec §3). -/
inductive MatchType where
  | exact
  | phrase
  | broad
deriving DecidableEq

/-- A loaded negative-keyword rule: keyword text and a match type.
Rule order is significant (first match wins, spec §3). -/
structure NegativeKeywordRule where
  keyword : String
  matchType : MatchType
deriving DecidableEq

/-- A cell of the `Search term` column as pandas hands it to `main.py`:
the column can be absent (`row.get('Search term','')` then yields `''`),
the value can be NaN/None (`pd.isna(term)` then forces `''`), a string, or a
numeric value that `str(term)` renders in decimal. -/
inductive CellValue where
  | missing
  | nanv
  | str (s : String)
  | intv (n : Int)
deriving DecidableEq

/-- One input record: the term cell plus the numeric performance fields the
core reads (cost and conversions); other columns pass through untouched and
are modelled by the column-name lists used for the output frames. -/
structure InputRow where
  searchTerm : CellValue
  cost : Option Rat
  conversions : Option Rat
deriving DecidableEq

/-- Character-by-character lowercasing: the model of Python `str.lower()`. -/
def strLower (s : String) : String :=
  String.mk (s.data.map Char.toLower)

/-- Split a character list at whitespace; the accumulator holds the current
word reversed.  Models Python `str.split()` (which drops empty chunks). -/
def splitWsAux : List Char → List Char → List String
  | [], acc => if acc = [] then [] else [String.mk acc.reverse]
  | c :: cs, acc =>
    if c.isWhitespace then
      if acc = [] then splitWsAux cs []
      else String.mk acc.reverse :: splitWsAux cs []
    else splitWsAux cs (c :: acc)

/-- Modelled from the spec: the matcher's tokenization (spec §4.1) —
lowercase, then split on whitespace, empty chunks dropped
(`matcher.py` is not under `src/`). -/
def tokens (s : String) : List String :=
  splitWsAux (strLower s).data []

/-- Modelled from the spec: term normalization (spec §4.1) — trim, lowercase
and collapse inner whitespace, i.e. the tokens joined by single spaces. -/
def normalize (s : String) : String :=
  String.intercalate " " (tokens s)

/-- Is the first token list a leading segment of the second? -/
def leadingSeq : List String → List String → Bool
  | [], _ => true
  | _ :: _, [] => false
  | p :: ps, t :: ts => decide (p = t) && leadingSeq ps ts

/-- Does the first token list occur contiguously inside the second? -/
def containsSeq (pat : List String) : List String → Bool
  | [] => leadingSeq pat []
  | t :: ts => leadingSeq pat (t :: ts) || containsSeq pat ts

/-- Modelled from the spec: the three match-type predicates of §4.1
(`matcher.py` is not under `src/`).  Exact compares normalized strings,
Phrase looks for the keyword's token sequence as a contiguous run inside the
term's tokens, Broad requires every keyword token to appear among the term's
tokens. -/
def ruleSat (r : NegativeKeywordRule) (term : String) : Bool :=
  match r.matchType with
  | MatchType.exact => decide (normalize term = normalize r.keyword)
  | MatchType.phrase => containsSeq (tokens r.keyword) (tokens term)
  | MatchType.broad => (tokens r.keyword).all (fun p => (tokens term).contains p)

/-- Display name of a match type, used in exclusion reasons. -/
def MatchType.label : MatchType → String
  | MatchType.exact => "Exact"
  | MatchType.phrase => "Phrase"
  | MatchType.broad => "Broad"

/-- Modelled from the spec: rules are evaluated in input order and the first
satisfied rule wins (spec §4.1). -/
def matchTerm (rules : List NegativeKeywordRule) (term : String) :
    Option NegativeKeywordRule :=
  rules.find? (fun r => ruleSat r term)

/-- Modelled from the spec: the matcher's `(is_excluded, reason)` result as
consumed by `main.py`, whose comment documents the reason format
`Excluded by MATCH_TYPE negative: KEYWORD`; no match yields `(False, None)`. -/
def matchReason (rules : List NegativeKeywordRule) (term : String) :
    Bool × Option String :=
  match matchTerm rules term with
  | some r =>
    (true, some ("Excluded by " ++ r.matchType.label ++ " negative: " ++ r.keyword))
  | none => (false, none)

/-- `main.py` term-cell handling: `row.get('Search term','')` gives `''` for a
missing column, `pd.isna` forces `''` for NaN, and everything else goes
through `str(term)` — a string stays itself, a numeric cell is rendered in
decimal. -/
def cellStr : CellValue → String
  | CellValue.missing => ""
  | CellValue.nanv => ""
  | CellValue.str s => s
  | CellValue.intv n => toString n

/-- Python `reason if reason else default`: `None` and the empty string are
falsy, any other string is returned unchanged. -/
def pyOrDefault (reason : Option String) (d : String) : String :=
  match reason with
  | some s => if s = "" then d else s
  | none => d

/-- A classified record as built by `main.py`'s loop: the input row plus
`excluded_by_negatives`, `exclusion_reason` and `checked_at`.  The reason
column is typed `Option String` because a pandas cell may hold None, though
the code always assigns a string. -/
structure ClassifiedRow where
  row : InputRow
  excluded : Bool
  exclusionReason : Option String
  checkedAt : Nat
deriving DecidableEq

/-- If the pattern is a leading segment of the list, return the remainder. -/
def dropSeq : List Char → List Char → Option (List Char)
  | [], l => some l
  | _ :: _, [] => none
  | p :: ps, c :: cs => if p = c then dropSeq ps cs else none

/-- Python `s.startswith(pre)`. -/
def strStartsWith (s pre : String) : Bool :=
  (dropSeq pre.data s.data).isSome

/-- The part before and after the first occurrence of the separator, if any. -/
def splitFirstAux (sep : List Char) : List Char → Option (List Char × List Char)
  | [] => none
  | c :: cs =>
    match dropSeq sep (c :: cs) with
    | some rest => some ([], rest)
    | none =>
      match splitFirstAux sep cs with
      | some (a, b) => some (c :: a, b)
      | none => none

/-- Python `s.split(sep, 1)`: two pieces around the first occurrence of the
separator, or the whole string when the separator does not occur. -/
def pySplit1 (s sep : String) : List String :=
  match splitFirstAux sep.data s.data with
  | some (a, b) => [String.mk a, String.mk b]
  | none => [s]

/-- Replace every occurrence of the pattern, fuelled by one unit per input
character; fuel `l.length` suffices because each step consumes at least one
character whenever the pattern is nonempty (the only way it is called). -/
def replaceAux (pat rep : List Char) : Nat → List Char → List Char
  | 0, l => l
  | _ + 1, [] => []
  | fuel + 1, c :: cs =>
    match dropSeq pat (c :: cs) with
    | some rest => rep ++ replaceAux pat rep fuel rest
    | none => c :: replaceAux pat rep fuel cs

/-- Python `s.replace(pat, rep)` for a nonempty pattern. -/
def pyReplace (s pat rep : String) : String :=
  String.mk (replaceAux pat.data rep.data s.data.length s.data)

/-- `main.py`'s audit-row parsing (part_000 lines 786-794): when the record is
excluded and the raw reason starts with `Excluded by`, split once on
`" negative: "` to recover the matched keyword and, stripping the
`Excluded by ` tag, the match type; otherwise both columns stay null. -/
def parseAudit (isExcluded : Bool) (reason : Option String) :
    Option String × Option String :=
  if isExcluded then
    match reason with
    | some s =>
      if strStartsWith s "Excluded by" then
        match pySplit1 s " negative: " with
        | [a, b] => (some b, some (pyReplace a "Excluded by " ""))
        | _ => (none, none)
      else (none, none)
    | none => (none, none)
  else (none, none)

/-- An audit record: the classified row plus the parsed
`matched_negative_keyword` and `matched_negative_match_type` columns. -/
structure AuditRow where
  base : ClassifiedRow
  matchedNegativeKeyword : Option String
  matchedNegativeMatchType : Option String
deriving DecidableEq

/-- One iteration of `main.py`'s loop over `terms_records` (part_000 lines
768-799): normalize the term cell, ask the matcher, build the classified
row (`exclusion_reason` defaulting to `"Not matched by any negative"`), and
derive the audit row by parsing the raw reason. -/
def processRow (rules : List NegativeKeywordRule) (now : Nat) (row : InputRow) :
    ClassifiedRow × AuditRow :=
  let term := cellStr row.searchTerm
  let res := matchReason rules term
  let rowData : ClassifiedRow :=
    { row := row
      excluded := res.1
      exclusionReason := some (pyOrDefault res.2 "Not matched by any negative")
      checkedAt := now }
  let audit := parseAudit res.1 res.2
  (rowData,
   { base := rowData
     matchedNegativeKeyword := audit.1
     matchedNegativeMatchType := audit.2 })

/-- The three collections `main.py`'s loop accumulates: review rows
(non-excluded only), audit rows (every record) and the excluded counter. -/
structure PipelineOutput where
  reviewRows : List ClassifiedRow
  auditRows : List AuditRow
  excludedCount : Nat
deriving DecidableEq

/-- The loop body of `main.py` (part_000 lines 768-805): every record appends
an audit row; an excluded record bumps the counter, a non-excluded one is
appended to the review rows. -/
def stepRow (rules : List NegativeKeywordRule) (now : Nat)
    (acc : PipelineOutput) (row : InputRow) : PipelineOutput :=
  let pr := processRow rules now row
  { reviewRows := if pr.1.excluded then acc.reviewRows else acc.reviewRows ++ [pr.1]
    auditRows := acc.auditRows ++ [pr.2]
    excludedCount := acc.excludedCount + (if pr.1.excluded then 1 else 0) }

/-- The whole matching loop of `main.py` run over the input records in order
(the audit path, i.e. the run with `--audit-output` supplied). -/
def runPipeline (rules : List NegativeKeywordRule) (now : Nat)
    (rows : List InputRow) : PipelineOutput :=
  rows.foldl (stepRow rules now)
    { reviewRows := [], auditRows := [], excludedCount := 0 }

/-- The summary counters of a run: total terms, excluded count and remaining
count as printed and exported by `main.py`. -/
structure AnalyticsSummary where
  totalTerms : Nat
  excludedCount : Nat
  remainingCount : Nat
deriving DecidableEq

/-- The counts `main.py` reports after filtering: total = number of input
records, excluded = the loop counter, remaining = `len(review_rows)`. -/
def summarize (rules : List NegativeKeywordRule) (now : Nat)
    (rows : List InputRow) : AnalyticsSummary :=
  let out := runPipeline rules now rows
  { totalTerms := rows.length
    excludedCount := out.excludedCount
    remainingCount := out.reviewRows.length }

/-- The audit columns `main.py` appends to every output record. -/
def auditColumns : List String :=
  ["excluded_by_negatives", "exclusion_reason", "checked_at"]

/-- A review output frame: its column list and its records. -/
structure ReviewFrame where
  columns : List String
  rows : List ClassifiedRow
deriving DecidableEq

/-- `main.py` lines 810-815: a nonempty review set becomes
`pd.DataFrame(review_rows)` — whose columns are the input columns plus the
three appended keys, in insertion order — while an empty one is built as an
explicitly structured empty frame over the very same column list. -/
def buildReviewFrame (inputColumns : List String)
    (reviewRows : List ClassifiedRow) : ReviewFrame :=
  if reviewRows = [] then
    { columns := inputColumns ++ auditColumns, rows := [] }
  else
    { columns := inputColumns ++ auditColumns, rows := reviewRows }

/-- `analytics.py`'s cost-waste computation as quoted in the repository audit
(part_000 lines 512-515): with a Cost column present the coerced sum is
taken (`pd.to_numeric(..., errors='coerce').sum()`, undefined cells counting
as zero); with no Cost column the code falls back to
`len(excluded) * 2.5`.  The argument list carries the excluded records'
cost cells, `none` standing for an undefined cell. -/
def total_cost_waste (hasCostColumn : Bool) (excludedCosts : List (Option Rat)) : Rat :=
  if hasCostColumn then (excludedCosts.map (fun c => c.getD 0)).sum
  else (excludedCosts.length : Rat) * (5 / 2)

/-- Modelled from the spec: `auto_negative.py` is not under `src/`; its CTR
computation as recorded in SECURITY_FIXES_APPLIED.md —
`np.where(impressions > 0, clicks / impressions * 100, 0)`. -/
def ctr (clicks impressions : Rat) : Rat :=
  if 0 < impressions then clicks / impressions * 100 else 0

/-- Modelled from the spec: `auto_negative.py`'s CPC computation as recorded
in SECURITY_FIXES_APPLIED.md — `np.where(clicks > 0, cost / clicks, 0)`. -/
def cpc (cost clicks : Rat) : Rat :=
  if 0 < clicks then cost / clicks else 0

/-- A suggestion produced by the auto-negative engine (spec §3). -/
structure CandidateSuggestion where
  text : String
  occurrenceCount : Nat
  totalCostWaste : Rat
  confidenceScore : Rat
  supportingTermCount : Nat
deriving DecidableEq, Inhabited

/-- Clamp a value to the interval [0, 1] (spec §4.2 step 3: every sub-score
is pre-clamped to [0,1] before weighting). -/
def clamp01 (x : Rat) : Rat := max 0 (min 1 x)

/-- The ε floor of the cost-impact denominator (spec §4.2 step 3). -/
def epsilonFloor : Rat := 1 / 1000000

/-- The cost of a record, an undefined cell counting as zero. -/
def termCost (r : InputRow) : Rat := r.cost.getD 0

/-- Does the record have zero (or undefined) conversions? -/
def isZeroConv (r : InputRow) : Bool := decide (r.conversions.getD 0 = 0)

/-- The default poor-performer predicate: cost > 0 and conversions == 0
(spec §4.2). -/
def defaultPoor (r : InputRow) : Bool :=
  decide (0 < termCost r) && isZeroConv r

/-- Is a token trivially short (≤ 2 characters) or a stop token?  Such tokens
are discarded during candidate extraction (spec §4.2 step 1). -/
def shortOrStop (stop : List String) (tok : String) : Bool :=
  decide (tok.data.length ≤ 2) || stop.contains tok

/-- Modelled from the spec: candidate windows over one term's tokens —
single tokens and two-token windows, short/stop tokens discarded
(spec §4.2 step 1). -/
def candWindows (stop : List String) (toks : List String) : List (List String) :=
  let good := toks.filter (fun t => !shortOrStop stop t)
  good.map (fun t => [t]) ++ (good.zip good.tail).map (fun p => [p.1, p.2])

/-- Modelled from the spec: all distinct candidate keywords mined from the
poor performers' term texts (spec §4.2 step 1). -/
def candidateTexts (stop : List String) (poor : List InputRow) : List (List String) :=
  ((poor.map (fun r => candWindows stop (tokens (cellStr r.searchTerm)))).flatten).dedup

/-- The weighted scoring formula of spec §4.2 steps 3-4: every raw sub-score
is clamped to [0,1] first, then `confidence_score = 100 × (0.30 × occurrence
+ 0.40 × cost impact + 0.30 × zero conversion)`. -/
def confidenceFormula (occRaw costRaw zeroRaw : Rat) : Rat :=
  100 * (3 / 10 * clamp01 occRaw + 4 / 10 * clamp01 costRaw + 3 / 10 * clamp01 zeroRaw)

/-- Modelled from the spec: one candidate's statistics and confidence score
(spec §4.2 steps 2-4).  `occurrence_count` counts the poor performers whose
token sequence contains the candidate, `total_cost_waste` sums their cost,
and the three raw sub-scores (occurrence share, cost-impact share, fraction
of zero-conversion occurrences) feed the clamped weighted formula. -/
def mkCandidate (poor : List InputRow) (totalWaste : Rat) (cand : List String) :
    CandidateSuggestion :=
  let supporters := poor.filter (fun r => containsSeq cand (tokens (cellStr r.searchTerm)))
  let occ := supporters.length
  let waste := (supporters.map termCost).sum
  let zeroConvCount := (supporters.filter isZeroConv).length
  { text := String.intercalate " " cand
    occurrenceCount := occ
    totalCostWaste := waste
    confidenceScore := confidenceFormula
      ((occ : Rat) / ((max poor.length 1 : Nat) : Rat))
      (waste / max totalWaste epsilonFloor)
      (if occ = 0 then 0 else (zeroConvCount : Rat) / (occ : Rat))
    supportingTermCount := occ }

/-- The ranking order of spec §4.2 step 5: confidence descending, then
occurrence count descending, then candidate text ascending. -/
def candBefore (a b : CandidateSuggestion) : Bool :=
  if a.confidenceScore = b.confidenceScore then
    if a.occurrenceCount = b.occurrenceCount then decide (a.text ≤ b.text)
    else decide (b.occurrenceCount ≤ a.occurrenceCount)
  else decide (b.confidenceScore ≤ a.confidenceScore)

/-- Insert a candidate into an already ranked list. -/
def insertCand (c : CandidateSuggestion) :
    List CandidateSuggestion → List CandidateSuggestion
  | [] => [c]
  | d :: ds => if candBefore c d then c :: d :: ds else d :: insertCand c ds

/-- Rank a candidate list by `candBefore` (insertion sort). -/
def sortCands : List CandidateSuggestion → List CandidateSuggestion
  | [] => []
  | c :: cs => insertCand c (sortCands cs)

/-- Modelled from the spec: the suggestion engine of §4.2
(`auto_negative.py` is not under `src/`) — filter poor performers, mine
candidates, score them, rank and truncate to the top K. -/
def suggest (poorPred : InputRow → Bool) (stop : List String) (topK : Nat)
    (records : List InputRow) : List CandidateSuggestion :=
  let poor := records.filter poorPred
  let totalWaste := (poor.map termCost).sum
  (sortCands ((candidateTexts stop poor).map (mkCandidate poor totalWaste))).take topK

/-- Match-type text accepted case-insensitively at load time (spec §6). -/
def parseMatchType (s : String) : Option MatchType :=
  if strLower s = "exact" then some MatchType.exact
  else if strLower s = "phrase" then some MatchType.phrase
  else if strLower s = "broad" then some MatchType.broad
  else none

/-- Modelled from the spec: rule loading (spec §6 and §7) — an unrecognized
match type or an empty keyword text is an `InvalidRuleError`, never a silent
coercion. -/
def loadRules : List (String × String) → Except String (List NegativeKeywordRule)
  | [] => Except.ok []
  | (kw, mts) :: rest =>
    match parseMatchType mts with
    | none => Except.error ("Unrecognized match type: " ++ mts)
    | some mt =>
      if normalize kw = "" then Except.error "Empty keyword text"
      else
        match loadRules rest with
        | Except.error e => Except.error e
        | Except.ok rs => Except.ok ({ keyword := kw, matchType := mt } :: rs)

/-- One batch unit: its input terms and its raw (keyword, match-type) rule
rows as loaded (spec §4.4). -/
structure BatchUnit where
  terms : List InputRow
  rawRules : List (String × String)

/-- The outcome of one unit: success with its summary, or a failure record
with an error kind and message (spec §4.4). -/
inductive UnitOutcome where
  | success (summary : AnalyticsSummary)
  | failure (errorKind : String) (message : String)
deriving DecidableEq

/-- Modelled from the spec: run one unit's pipeline — rule validation, then
the Matcher/Aggregator pass; a rule error aborts only this unit and is
reported as an `InvalidRuleError` failure (spec §4.4 and §7). -/
def runUnit (now : Nat) (u : BatchUnit) : UnitOutcome :=
  match loadRules u.rawRules with
  | Except.error e => UnitOutcome.failure "InvalidRuleError" e
  | Except.ok rules => UnitOutcome.success (summarize rules now u.terms)

/-- Modelled from the spec: the batch orchestrator of §4.4
(`batch_processor.py` is not under `src/`) — every unit is processed
independently and the combined result lists one outcome per unit. -/
def run_batch (now : Nat) (units : List BatchUnit) : List UnitOutcome :=
  units.map (runUnit now)

/-- A classified row without its `checked_at` timestamp, used to compare the
classification content of two runs. -/
def stripTime (c : ClassifiedRow) : InputRow × Bool × Option String :=
  (c.row, c.excluded, c.exclusionReason)

/-- An audit row without its timestamp. -/
def stripTimeAudit (a : AuditRow) :
    (InputRow × Bool × Option String) × Option String × Option String :=
  (stripTime a.base, a.matchedNegativeKeyword, a.matchedNegativeMatchType)

/-- A one-record poor-performer sample used to exercise the suggestion
engine on concrete data. -/
def sampleRecords : List InputRow :=
  [{ searchTerm := CellValue.str "freebie junk", cost := some 5, conversions := some 0 }]

/-- Characterization of the accumulation loop: folding `stepRow` over the
records appends, to any starting accumulator, the non-excluded classified
rows, all the audit rows, and the number of excluded rows. -/
theorem foldl_stepRow (rules : List NegativeKeywordRule) (now : Nat)
    (rows : List InputRow) (acc : PipelineOutput) :
    rows.foldl (stepRow rules now) acc =
      { reviewRows := acc.reviewRows ++
          (rows.map (fun r => (processRow rules now r).1)).filter (fun c => !c.excluded)
        auditRows := acc.auditRows ++ rows.map (fun r => (processRow rules now r).2)
        excludedCount := acc.excludedCount +
          ((rows.map (fun r => (processRow rules now r).1)).filter
            (fun c => c.excluded)).length } := by
  induction rows generalizing acc with
  | nil => simp
  | cons r rs ih =>
    rw [List.foldl_cons, ih]
    cases h : (processRow rules now r).1.excluded <;>
      simp [stepRow, h, List.filter_cons] <;> omega

/-- The pipeline output in closed form: review rows are the ordered
non-excluded classified records, audit rows are all classified records in
input order, and the counter counts the excluded ones. -/
theorem runPipeline_eq (rules : List NegativeKeywordRule) (now : Nat)
    (rows : List InputRow) :
    runPipeline rules now rows =
      { reviewRows :=
          (rows.map (fun r => (processRow rules now r).1)).filter (fun c => !c.excluded)
        auditRows := rows.map (fun r => (processRow rules now r).2)
        excludedCount := ((rows.map (fun r => (processRow rules now r).1)).filter
          (fun c => c.excluded)).length } := by
  rw [runPipeline, foldl_stepRow]
  simp

/-- Splitting a list by a Boolean predicate preserves its length. -/
theorem length_filter_split {α : Type} (p : α → Bool) (l : List α) :
    (l.filter p).length + (l.filter (fun a => !p a)).length = l.length := by
  induction l with
  | nil => rfl
  | cons a t ih =>
    cases h : p a <;> simp [List.filter_cons, h] <;> omega

/-- C2: for every run of the matching-plus-aggregation pipeline, whatever the
input terms and rules, the resulting summary satisfies
excluded_count + remaining_count = total_terms — every input record is
counted exactly once, either as excluded or as remaining. -/
theorem excluded_plus_remaining_eq_total (rules : List NegativeKeywordRule)
    (now : Nat) (rows : List InputRow) :
    (summarize rules now rows).excludedCount +
        (summarize rules now rows).remainingCount =
      (summarize rules now rows).totalTerms := by
  have h := length_filter_split (fun c : ClassifiedRow => c.excluded)
    (rows.map (fun r => (processRow rules now r).1))
  have hm : (rows.map (fun r => (processRow rules now r).1)).length = rows.length :=
    List.length_map _ _
  simp only [summarize, runPipeline_eq]
  omega

/-- C3 counterexample: a record the matcher leaves non-excluded still carries
a non-null exclusion_reason — `main.py` always assigns a string, substituting
"Not matched by any negative" when the matcher returned no reason, so the
claimed "non-null iff excluded" equivalence fails on any unmatched term. -/
theorem exclusion_reason_nonnull_even_when_not_excluded :
    (processRow [] 0
        { searchTerm := CellValue.str "hello", cost := none, conversions := none }).1.excluded
        = false ∧
    (processRow [] 0
        { searchTerm := CellValue.str "hello", cost := none, conversions := none }).1.exclusionReason
        ≠ none := by
  decide

/-- C3 (amended): exclusion_reason is always non-null after the matcher runs;
for a non-excluded record it is the string "Not matched by any negative"
rather than null. -/
theorem exclusion_reason_always_set (rules : List NegativeKeywordRule)
    (now : Nat) (row : InputRow) :
    (processRow rules now row).1.exclusionReason ≠ none ∧
    ((processRow rules now row).1.excluded = false →
      (processRow rules now row).1.exclusionReason =
        some "Not matched by any negative") := by
  constructor
  · simp [processRow]
  · intro h
    cases hfind : matchTerm rules (cellStr row.searchTerm) with
    | none => simp [processRow, matchReason, hfind, pyOrDefault]
    | some r =>
      exfalso
      simp [processRow, matchReason, hfind] at h

theorem exclusion_reason_always_set_witness :
    (processRow [] 0
        { searchTerm := CellValue.str "demo", cost := none, conversions := none }).1.exclusionReason
        ≠ none ∧
    (processRow [] 0
        { searchTerm := CellValue.str "demo", cost := none, conversions := none }).1.exclusionReason
        = some "Not matched by any negative" :=
  ⟨(exclusion_reason_always_set [] 0 _).1,
   (exclusion_reason_always_set [] 0 _).2 (by decide)⟩

/-- C7: the audit record set contains every term in input order, with the
matched-keyword and match-type columns; the review record set is exactly the
non-excluded classified records, and it is an order-preserving subsequence of
the classified records, so within a unit output order equals input order. -/
theorem review_audit_structure (rules : List NegativeKeywordRule) (now : Nat)
    (rows : List InputRow) :
    (runPipeline rules now rows).auditRows =
      rows.map (fun r => (processRow rules now r).2) ∧
    (runPipeline rules now rows).reviewRows =
      (rows.map (fun r => (processRow rules now r).1)).filter (fun c => !c.excluded) ∧
    List.Sublist (runPipeline rules now rows).reviewRows
      (rows.map (fun r => (processRow rules now r).1)) := by
  refine ⟨?_, ?_, ?_⟩
  · rw [runPipeline_eq]
  · rw [runPipeline_eq]
  · rw [runPipeline_eq]
    exact List.filter_sublist _

/-- `find?` returns the first element satisfying the predicate: everything
before it fails, it succeeds. -/
theorem find?_first {α : Type} (p : α → Bool) (pre : List α) (r : α) (post : List α)
    (hpre : ∀ x ∈ pre, p x = false) (hr : p r = true) :
    (pre ++ r :: post).find? p = some r := by
  induction pre with
  | nil => simpa using List.find?_cons_of_pos post hr
  | cons a t ih =>
    have ha : ¬ p a = true := by simp [hpre a (by simp)]
    rw [List.cons_append, List.find?_cons_of_neg _ ha]
    exact ih (fun x hx => hpre x (by simp [hx]))

/-- The matcher's reason strings are never empty. -/
theorem reason_string_ne_empty (r : NegativeKeywordRule) :
    ("Excluded by " ++ r.matchType.label ++ " negative: " ++ r.keyword) ≠ "" := by
  intro h0
  have hl := congrArg String.length h0
  have h12 : "Excluded by ".length = 12 := by decide
  have h0len : "".length = 0 := by decide
  rw [String.length_append, String.length_append, String.length_append, h12, h0len] at hl
  omega

/-- C6 (amended): rules are evaluated in input order and the first satisfied
rule wins, recording its keyword and match type in the exclusion reason; when
no rule is satisfied the record gets excluded = false with reason
"Not matched by any negative"; a missing or NaN term cell is treated as the
empty string, while any other non-string (numeric) cell is rendered through
str() — never an error. -/
theorem matcher_first_wins (rules : List NegativeKeywordRule) (now : Nat)
    (row : InputRow) :
    ((∀ r ∈ rules, ruleSat r (cellStr row.searchTerm) = false) →
      (processRow rules now row).1.excluded = false ∧
      (processRow rules now row).1.exclusionReason =
        some "Not matched by any negative") ∧
    (∀ pre r post, rules = pre ++ r :: post →
      (∀ r2 ∈ pre, ruleSat r2 (cellStr row.searchTerm) = false) →
      ruleSat r (cellStr row.searchTerm) = true →
      (processRow rules now row).1.excluded = true ∧
      (processRow rules now row).1.exclusionReason =
        some ("Excluded by " ++ r.matchType.label ++ " negative: " ++ r.keyword)) ∧
    cellStr CellValue.missing = "" ∧ cellStr CellValue.nanv = "" ∧
    (∀ n : Int, cellStr (CellValue.intv n) = toString n) := by
  refine ⟨?_, ?_, rfl, rfl, fun n => rfl⟩
  · intro hall
    have hfind : matchTerm rules (cellStr row.searchTerm) = none :=
      List.find?_eq_none.mpr (fun x hx => by simp [hall x hx])
    simp [processRow, matchReason, hfind, pyOrDefault]
  · intro pre r post hsplit hpre hr
    have hfind : matchTerm rules (cellStr row.searchTerm) = some r := by
      rw [matchTerm, hsplit]
      exact find?_first _ pre r post hpre hr
    have hne := reason_string_ne_empty r
    simp [processRow, matchReason, hfind, pyOrDefault, hne]

/-- C6 counterexample: a non-string (numeric) term cell is not treated as the
empty string — `str()` renders it, so the term "7" is excluded by the exact
rule "7" while the empty-string term is not. -/
theorem numeric_term_not_treated_as_empty :
    (processRow [{ keyword := "7", matchType := MatchType.exact }] 0
        { searchTerm := CellValue.intv 7, cost := none, conversions := none }).1.excluded
        = true ∧
    (processRow [{ keyword := "7", matchType := MatchType.exact }] 0
        { searchTerm := CellValue.str "", cost := none, conversions := none }).1.excluded
        = false := by
  decide

theorem matcher_first_wins_witness :
    (processRow [{ keyword := "free", matchType := MatchType.exact }] 0
        { searchTerm := CellValue.str "free", cost := none, conversions := none }).1.excluded
        = true ∧
    (processRow [{ keyword := "free", matchType := MatchType.exact }] 0
        { searchTerm := CellValue.str "free", cost := none, conversions := none }).1.exclusionReason
        = some ("Excluded by " ++ MatchType.label MatchType.exact ++ " negative: " ++ "free") :=
  (matcher_first_wins _ 0 _).2.1 []
    { keyword := "free", matchType := MatchType.exact } [] rfl
    (by simp) (by decide)

/-- C9 counterexample: two runs of the same (terms, rules) input at different
wall-clock instants do not yield identical classified records — the
checked_at column differs. -/
theorem checked_at_differs_between_runs :
    (runPipeline [] 0
        [{ searchTerm := CellValue.str "demo term", cost := none, conversions := none }]).reviewRows
      ≠
    (runPipeline [] 1
        [{ searchTerm := CellValue.str "demo term", cost := none, conversions := none }]).reviewRows := by
  decide

/-- C9 (amended): matching is deterministic on every classification field —
two runs of the same (terms, rules) input agree on all review rows, audit
rows and counters once the checked_at timestamp is stripped; only checked_at
reflects each run's own clock. -/
theorem match_deterministic_mod_time (rules : List NegativeKeywordRule)
    (t1 t2 : Nat) (rows : List InputRow) :
    (runPipeline rules t1 rows).reviewRows.map stripTime =
      (runPipeline rules t2 rows).reviewRows.map stripTime ∧
    (runPipeline rules t1 rows).auditRows.map stripTimeAudit =
      (runPipeline rules t2 rows).auditRows.map stripTimeAudit ∧
    (runPipeline rules t1 rows).excludedCount =
      (runPipeline rules t2 rows).excludedCount := by
  refine ⟨?_, ?_, ?_⟩ <;> rw [runPipeline_eq, runPipeline_eq]
  · show ((rows.map (fun r => (processRow rules t1 r).1)).filter
        (fun c => !c.excluded)).map stripTime =
      ((rows.map (fun r => (processRow rules t2 r).1)).filter
        (fun c => !c.excluded)).map stripTime
    induction rows with
    | nil => rfl
    | cons r rs ih =>
      have hex : (processRow rules t1 r).1.excluded =
          (processRow rules t2 r).1.excluded := rfl
      have hst : stripTime (processRow rules t1 r).1 =
          stripTime (processRow rules t2 r).1 := rfl
      simp only [List.map_cons, List.filter_cons, hex, hst]
      cases h : (processRow rules t2 r).1.excluded <;> simp [h, ih, hst]
  · show (rows.map (fun r => (processRow rules t1 r).2)).map stripTimeAudit =
      (rows.map (fun r => (processRow rules t2 r).2)).map stripTimeAudit
    simp only [List.map_map]
    exact List.map_congr_left (fun a _ => rfl)
  · show ((rows.map (fun r => (processRow rules t1 r).1)).filter
        (fun c => c.excluded)).length =
      ((rows.map (fun r => (processRow rules t2 r).1)).filter
        (fun c => c.excluded)).length
    induction rows with
    | nil => rfl
    | cons r rs ih =>
      have hex : (processRow rules t1 r).1.excluded =
          (processRow rules t2 r).1.excluded := rfl
      simp only [List.map_cons, List.filter_cons, hex]
      cases h : (processRow rules t2 r).1.excluded <;> simp [h, ih]

/-- C10: when every input term is excluded (and in particular when the input
is empty), the review output still carries the full column structure — all
input columns plus excluded_by_negatives, exclusion_reason and checked_at —
with an empty record list, rather than a structureless empty output. -/
theorem empty_review_keeps_columns (rules : List NegativeKeywordRule) (now : Nat)
    (rows : List InputRow) (inputColumns : List String)
    (h : ∀ r ∈ rows, (processRow rules now r).1.excluded = true) :
    buildReviewFrame inputColumns (runPipeline rules now rows).reviewRows =
      { columns := inputColumns ++ auditColumns, rows := [] } := by
  have hrev : (runPipeline rules now rows).reviewRows = [] := by
    rw [runPipeline_eq]
    refine List.filter_eq_nil_iff.mpr ?_
    intro c hc
    obtain ⟨r, hr, rfl⟩ := List.mem_map.mp hc
    simp [h r hr]
  rw [hrev]
  simp [buildReviewFrame]

theorem empty_review_keeps_columns_witness :
    buildReviewFrame ["Search term"]
        (runPipeline [{ keyword := "free", matchType := MatchType.exact }] 0
          [{ searchTerm := CellValue.str "free", cost := none, conversions := none }]).reviewRows
      = { columns := ["Search term"] ++ auditColumns, rows := [] } :=
  empty_review_keeps_columns _ 0 _ ["Search term"] (by decide)

theorem clamp01_nonneg (x : Rat) : 0 ≤ clamp01 x :=
  le_max_left 0 _

theorem clamp01_le_one (x : Rat) : clamp01 x ≤ 1 :=
  max_le (by norm_num) (min_le_left 1 x)

/-- The weighted sum of clamped sub-scores always lands in [0, 100]. -/
theorem confidenceFormula_bounds (a b c : Rat) :
    0 ≤ confidenceFormula a b c ∧ confidenceFormula a b c ≤ 100 := by
  have ha0 := clamp01_nonneg a
  have ha1 := clamp01_le_one a
  have hb0 := clamp01_nonneg b
  have hb1 := clamp01_le_one b
  have hc0 := clamp01_nonneg c
  have hc1 := clamp01_le_one c
  unfold confidenceFormula
  constructor <;> linarith

theorem mem_insertCand {x c : CandidateSuggestion} {l : List CandidateSuggestion} :
    x ∈ insertCand c l ↔ x = c ∨ x ∈ l := by
  induction l with
  | nil => simp [insertCand]
  | cons d ds ih =>
    cases hc : candBefore c d <;> simp [insertCand, hc, ih] <;> tauto

theorem mem_sortCands {x : CandidateSuggestion} {l : List CandidateSuggestion} :
    x ∈ sortCands l ↔ x ∈ l := by
  induction l with
  | nil => simp [sortCands]
  | cons c cs ih => simp [sortCands, mem_insertCand, ih]

theorem length_insertCand (c : CandidateSuggestion) (l : List CandidateSuggestion) :
    (insertCand c l).length = l.length + 1 := by
  induction l with
  | nil => rfl
  | cons d ds ih => cases hc : candBefore c d <;> simp [insertCand, hc, ih]

theorem length_sortCands (l : List CandidateSuggestion) :
    (sortCands l).length = l.length := by
  induction l with
  | nil => rfl
  | cons c cs ih => simp [sortCands, length_insertCand, ih]

/-- The engine emits one ranked candidate per mined text, truncated to K. -/
theorem length_suggest (poorPred : InputRow → Bool) (stop : List String)
    (topK : Nat) (records : List InputRow) :
    (suggest poorPred stop topK records).length =
      min topK (candidateTexts stop (records.filter poorPred)).length := by
  simp [suggest, length_sortCands]

theorem headI_mem_of_ne_nil {α : Type} [Inhabited α] (l : List α) (h : l ≠ []) :
    l.headI ∈ l := by
  cases l with
  | nil => exact absurd rfl h
  | cons a t => exact List.mem_cons_self a t

/-- C1: every CandidateSuggestion produced by the suggestion engine has a
confidence score in [0, 100] — each sub-score is clamped to [0,1] before the
0.30/0.40/0.30 weighting and the score is 100 times the weighted sum, so the
ceiling holds even when a raw ratio exceeds 1. -/
theorem confidence_score_bounded (poorPred : InputRow → Bool) (stop : List String)
    (topK : Nat) (records : List InputRow) (c : CandidateSuggestion)
    (hc : c ∈ suggest poorPred stop topK records) :
    0 ≤ c.confidenceScore ∧ c.confidenceScore ≤ 100 := by
  have h1 : c ∈ sortCands ((candidateTexts stop (records.filter poorPred)).map
      (mkCandidate (records.filter poorPred)
        (((records.filter poorPred).map termCost).sum))) :=
    List.take_subset _ _ hc
  have h2 := mem_sortCands.mp h1
  obtain ⟨cand, hcand, rfl⟩ := List.mem_map.mp h2
  exact confidenceFormula_bounds _ _ _

theorem confidence_score_bounded_witness :
    0 ≤ ((suggest (fun _ => true) [] 50 sampleRecords).headI).confidenceScore ∧
      ((suggest (fun _ => true) [] 50 sampleRecords).headI).confidenceScore ≤ 100 :=
  confidence_score_bounded (fun _ => true) [] 50 sampleRecords _
    (headI_mem_of_ne_nil _ (by
      intro hnil
      have hlen := congrArg List.length hnil
      rw [length_suggest] at hlen
      revert hlen
      decide))

/-- C4: evidence at the failing input — with no Cost column the audited
`analytics.py` code yields `len(excluded) * 2.5`, not the 0 the spec
prescribes; with a Cost column it sums the defined cells. -/
theorem cost_waste_fallback_nonzero :
    total_cost_waste false [none] = 5 / 2 ∧
    total_cost_waste false [none] ≠ 0 ∧
    total_cost_waste true [some 3, none, some (3 / 2)] = 9 / 2 := by
  refine ⟨?_, ?_, ?_⟩ <;> simp [total_cost_waste] <;> norm_num

/-- C5: every denominator that can legitimately be zero is guarded — a term
with zero clicks gets CPC 0 and zero impressions get CTR 0 (never an
exception, NaN or infinity, division being total on ℚ and the zero case
replaced by the neutral value); with a positive denominator the true ratio is
used; and the suggestion-engine denominators `max total_poor 1` and
`max total_cost_waste_overall ε` are always positive. -/
theorem zero_denominator_guarded (cost clicks impressions : Rat)
    (tp : Nat) (tw : Rat) :
    cpc cost 0 = 0 ∧ ctr clicks 0 = 0 ∧
    (0 < clicks → cpc cost clicks = cost / clicks) ∧
    (0 < impressions → ctr clicks impressions = clicks / impressions * 100) ∧
    (0 : Rat) < ((max tp 1 : Nat) : Rat) ∧ (0 : Rat) < max tw epsilonFloor := by
  refine ⟨?_, ?_, ?_, ?_, ?_, ?_⟩
  · simp [cpc]
  · simp [ctr]
  · intro h
    simp [cpc, h]
  · intro h
    simp [ctr, h]
  · exact_mod_cast Nat.lt_of_lt_of_le Nat.zero_lt_one (Nat.le_max_right tp 1)
  · exact lt_of_lt_of_le (by norm_num [epsilonFloor]) (le_max_right tw _)

theorem zero_denominator_guarded_witness :
    cpc 7 0 = 0 ∧ cpc 7 2 = 7 / 2 :=
  ⟨(zero_denominator_guarded 7 2 1 0 0).1,
   (zero_denominator_guarded 7 2 1 0 0).2.2.1 (by norm_num)⟩

/-- C8: the batch result lists exactly one outcome per unit, each outcome is a
function of that unit alone (so a failing unit never aborts a sibling), and
in the concrete two-unit scenario — one unit with the invalid match type
"Exat", one valid — the batch reports the first as an InvalidRuleError
failure and the second as a success with its summary intact. -/
theorem run_batch_isolates_failures (now : Nat) (units : List BatchUnit) (i : Nat) :
    (run_batch now units).length = units.length ∧
    (run_batch now units)[i]? = (units[i]?).map (runUnit now) ∧
    run_batch 0
        [{ terms := [{ searchTerm := CellValue.str "free stuff",
                       cost := none, conversions := none }],
           rawRules := [("freebie", "Exat")] },
         { terms := [{ searchTerm := CellValue.str "free",
                       cost := none, conversions := none },
                     { searchTerm := CellValue.str "buy now",
                       cost := none, conversions := none }],
           rawRules := [("free", "Exact")] }] =
      [UnitOutcome.failure "InvalidRuleError" "Unrecognized match type: Exat",
       UnitOutcome.success
         { totalTerms := 2, excludedCount := 1, remainingCount := 1 }] := by
  refine ⟨?_, ?_, ?_⟩
  · simp [run_batch]
  · simp [run_batch]
  · decide

end SearchTermFilter
